import Mathlib

/-!
Verification of the xtomarkdown engine-selection and conversion-orchestration
core: a shallow embedding (in Lean 4) of the Python modules
`core/file_mapping.py`, `core/engines/registry.py`, `core/converter.py`,
`config/settings.py`, `config/defaults.py` and the batch loop of
`gui/main_window.py` (`ConversionWorker.run`), together with theorems about
the embedded definitions.

Modelling conventions:
- Python `str` is Lean `String`; `str.lower()` is modelled on the ASCII
  fragment (the only one exercised by file extensions) via `Char.toLower`,
  and `str.lstrip(".")` via `List.dropWhile`.
- `pathlib.Path` is modelled by `PyPath`, a parent-directory string plus a
  final-component name, with `suffix`/`stem` following the pathlib
  definitions (last dot of the final component, only when it is neither the
  first nor the last character).
- The filesystem is an explicit parameter `fs : PyPath → Bool`
  (`Path.exists`).
- Engine availability (`is_available`, a runtime probe of an external tool)
  is an abstract boolean capability field; an engine instance is a record of
  its id, declared formats, availability and its `convert` behaviour
  (an opaque function, since real conversion shells out to external tools).
- Python dicts keyed by strings are association lists in insertion order
  (first binding wins on lookup, as registration keeps names unique).
- JSON values (`json.loads` output) are the inductive `JValue`; the
  persisted settings file is `Option (Option JValue)`: `none` = file does
  not exist, `some none` = text that fails to parse (JSONDecodeError),
  `some (some j)` = text parsing to `j`. Python dataclass construction
  `Settings(**data)` performs no type validation, so the result of
  `Settings.load` is a `PySettings`, a record of dynamically typed
  (`JValue`) fields.
-/

/-- `str.lower()` restricted to the ASCII fragment: lowercase every
character (Python lowercases the basic latin letters the same way). -/
def strLower (s : String) : String :=
  ⟨s.data.map Char.toLower⟩

/-- `str.lstrip(".")`: remove every leading `'.'` character. -/
def lstripDots (s : String) : String :=
  ⟨s.data.dropWhile fun c => c == '.'⟩

/-- `file_mapping.normalize_extension`: lowercase without leading dots,
`extension.lower().lstrip(".")`. -/
def normalize_extension (extension : String) : String :=
  lstripDots (strLower extension)

/-- Index of the last `'.'` in a list of characters (`str.rfind "."`,
with `none` for the Python result `-1`). -/
def lastDotIdx (l : List Char) : Option Nat :=
  ((l.enum.filter fun p => p.2 == '.').map Prod.fst).getLast?

/-- The fragment of `pathlib.Path` the core uses: a parent directory
(kept opaque as a string) and the final component `name`. -/
structure PyPath where
  parent : String
  name : String
deriving DecidableEq

/-- `Path.suffix`: the extension of the final component, with its dot;
empty when the last dot is absent, leading (hidden files) or trailing. -/
def PyPath.suffix (p : PyPath) : String :=
  match lastDotIdx p.name.data with
  | some i =>
      if 0 < i ∧ i < p.name.data.length - 1 then ⟨p.name.data.drop i⟩ else ""
  | none => ""

/-- `Path.stem`: the final component without its suffix. -/
def PyPath.stem (p : PyPath) : String :=
  match lastDotIdx p.name.data with
  | some i =>
      if 0 < i ∧ i < p.name.data.length - 1 then ⟨p.name.data.take i⟩ else p.name
  | none => p.name

/-- `str(path)` as used in error messages. -/
def PyPath.toStr (p : PyPath) : String :=
  p.parent ++ "/" ++ p.name

/-- `Path(folder) / name`: a path whose parent is `folder`. -/
def PyPath.joined (folder : String) (name : String) : PyPath :=
  ⟨folder, name⟩

/-- `defaults.DEFAULT_ENGINE_MAPPING`: extension to
(default engine, optional fallback engine). -/
def DEFAULT_ENGINE_MAPPING : String → Option (String × Option String)
  | "docx" => some ("pandoc", some "markitdown")
  | "doc" => some ("pandoc", none)
  | "xlsx" => some ("markitdown", some "pandoc")
  | "xls" => some ("markitdown", none)
  | "pptx" => some ("markitdown", some "pandoc")
  | "ppt" => some ("markitdown", none)
  | "pdf" => some ("pandoc", some "markitdown")
  | "rtf" => some ("pandoc", none)
  | "odt" => some ("pandoc", none)
  | "html" => some ("pandoc", some "markitdown")
  | "htm" => some ("pandoc", some "markitdown")
  | "epub" => some ("pandoc", some "markitdown")
  | "csv" => some ("markitdown", none)
  | "json" => some ("markitdown", none)
  | "xml" => some ("markitdown", none)
  | _ => none

/-- `defaults.SUPPORTED_FORMATS`: the key set of the mapping. -/
def SUPPORTED_FORMATS : List String :=
  ["docx", "doc", "xlsx", "xls", "pptx", "ppt", "pdf", "rtf", "odt",
   "html", "htm", "epub", "csv", "json", "xml"]

/-- `file_mapping.get_engine_for_format`: first element of the mapping. -/
def get_engine_for_format (extension : String) : Option String :=
  (DEFAULT_ENGINE_MAPPING (normalize_extension extension)).map Prod.fst

/-- `file_mapping.get_fallback_engine`: second element of the mapping
(the tuple always has length 2, its second slot may be `None`). -/
def get_fallback_engine (extension : String) : Option String :=
  (DEFAULT_ENGINE_MAPPING (normalize_extension extension)).bind Prod.snd

/-- `file_mapping.is_supported_format`. -/
def is_supported_format (extension : String) : Bool :=
  SUPPORTED_FORMATS.contains (normalize_extension extension)

/-- `engines.base.ConversionResult`. -/
structure ConversionResult where
  success : Bool
  output_path : Option PyPath := none
  error : Option String := none
  warnings : Option (List String) := none
deriving DecidableEq

/-- An engine instance: its identifying state plus its `convert` behaviour
(`run`, opaque: real conversion delegates to an external tool). `available`
is what `is_available()` currently reports. -/
structure Engine where
  name : String
  supported_formats : List String
  available : Bool
  run : PyPath → PyPath → ConversionResult

/-- `BaseEngine.supports_format`:
`extension.lower().lstrip(".") in self.supported_formats`. -/
def Engine.supports_format (e : Engine) (extension : String) : Bool :=
  e.supported_formats.contains (lstripDots (strLower extension))

/-- `PandocEngine.supported_formats`. -/
def pandocFormats : List String :=
  ["docx", "doc", "pdf", "html", "htm", "rtf", "odt", "epub", "pptx",
   "xlsx", "tex", "latex", "rst", "org"]

/-- `MarkItDownEngine.supported_formats`. -/
def markitdownFormats : List String :=
  ["docx", "pdf", "pptx", "xlsx", "xls", "html", "htm", "csv", "json",
   "xml", "epub", "jpg", "jpeg", "png", "gif", "webp", "wav", "mp3", "zip"]

/-- A `PandocEngine` instance whose availability and conversion behaviour
are abstract (they depend on the external pandoc installation). -/
def PandocEngine (available : Bool) (run : PyPath → PyPath → ConversionResult) : Engine :=
  ⟨"pandoc", pandocFormats, available, run⟩

/-- A `MarkItDownEngine` instance, availability and behaviour abstract. -/
def MarkItDownEngine (available : Bool) (run : PyPath → PyPath → ConversionResult) : Engine :=
  ⟨"markitdown", markitdownFormats, available, run⟩

/-- `EngineRegistry`: `_engines` is a string-keyed dict in insertion
order. -/
structure EngineRegistry where
  engines : List Engine

/-- `EngineRegistry.register`: insert under the engine's name; replacing
an existing name keeps its position (Python dict update semantics). -/
def EngineRegistry.register (r : EngineRegistry) (e : Engine) : EngineRegistry :=
  if r.engines.any fun x => x.name == e.name then
    ⟨r.engines.map fun x => if x.name == e.name then e else x⟩
  else
    ⟨r.engines ++ [e]⟩

/-- `EngineRegistry.get`: direct lookup by name, no availability filter. -/
def EngineRegistry.get (r : EngineRegistry) (name : String) : Option Engine :=
  r.engines.find? fun e => e.name == name

/-- `EngineRegistry.get_available`: registered engines whose availability
probe currently reports true, in registration order. -/
def EngineRegistry.get_available (r : EngineRegistry) : List Engine :=
  r.engines.filter fun e => e.available

/-- `EngineRegistry.get_all`. -/
def EngineRegistry.get_all (r : EngineRegistry) : List Engine :=
  r.engines

/-- `EngineRegistry.get_for_extension`: default engine, then fallback
engine, then the first available engine supporting the format. Each
candidate must be registered, available and declare support. -/
def EngineRegistry.get_for_extension (r : EngineRegistry) (ext0 : String) : Option Engine :=
  let ext := normalize_extension ext0
  let step1 : Option Engine :=
    match get_engine_for_format ext with
    | some default_engine_name =>
        match r.get default_engine_name with
        | some engine =>
            if engine.available && engine.supports_format ext then some engine else none
        | none => none
    | none => none
  match step1 with
  | some engine => some engine
  | none =>
      let step2 : Option Engine :=
        match get_fallback_engine ext with
        | some fallback_name =>
            match r.get fallback_name with
            | some engine =>
                if engine.available && engine.supports_format ext then some engine else none
            | none => none
        | none => none
      match step2 with
      | some engine => some engine
      | none => r.get_available.find? fun engine => engine.supports_format ext

/-- `EngineRegistry.get_engines_for_extension`. -/
def EngineRegistry.get_engines_for_extension (r : EngineRegistry) (ext0 : String) : List Engine :=
  let ext := normalize_extension ext0
  r.get_available.filter fun engine => engine.supports_format ext

/-- `config.settings.Settings` with the dataclass field types as declared
(the well-typed states the rest of the core manipulates). -/
structure Settings where
  output_mode : String := "same"
  output_folder : Option String := none
  engine_overrides : List (String × String) := []
  window_width : Int := 700
  window_height : Int := 500
  window_x : Option Int := none
  window_y : Option Int := none
deriving DecidableEq

/-- `Settings.get_engine_for_extension`:
`self.engine_overrides.get(ext.lower().lstrip("."))`. -/
def Settings.get_engine_for_extension (s : Settings) (ext : String) : Option String :=
  (s.engine_overrides.find? fun kv => kv.1 == lstripDots (strLower ext)).map Prod.snd

/-- A JSON value (`json.loads` output); numbers restricted to the integers
the settings file uses. -/
inductive JValue where
  | null : JValue
  | bool : Bool → JValue
  | num : Int → JValue
  | str : String → JValue
  | arr : List JValue → JValue
  | obj : List (String × JValue) → JValue

mutual

/-- Decidable equality for `JValue` (hand-rolled: the nesting through
lists defeats the automatic derivation). -/
def JValue.decEq : (a b : JValue) → Decidable (a = b)
  | JValue.null, JValue.null => isTrue rfl
  | JValue.bool a, JValue.bool b =>
      if h : a = b then isTrue (by rw [h]) else isFalse (by simp [h])
  | JValue.num a, JValue.num b =>
      if h : a = b then isTrue (by rw [h]) else isFalse (by simp [h])
  | JValue.str a, JValue.str b =>
      if h : a = b then isTrue (by rw [h]) else isFalse (by simp [h])
  | JValue.arr as, JValue.arr bs =>
      match JValue.decEqList as bs with
      | isTrue h => isTrue (by rw [h])
      | isFalse h => isFalse (by simp [h])
  | JValue.obj as, JValue.obj bs =>
      match JValue.decEqObj as bs with
      | isTrue h => isTrue (by rw [h])
      | isFalse h => isFalse (by simp [h])
  | JValue.null, JValue.bool _ => isFalse (by simp)
  | JValue.null, JValue.num _ => isFalse (by simp)
  | JValue.null, JValue.str _ => isFalse (by simp)
  | JValue.null, JValue.arr _ => isFalse (by simp)
  | JValue.null, JValue.obj _ => isFalse (by simp)
  | JValue.bool _, JValue.null => isFalse (by simp)
  | JValue.bool _, JValue.num _ => isFalse (by simp)
  | JValue.bool _, JValue.str _ => isFalse (by simp)
  | JValue.bool _, JValue.arr _ => isFalse (by simp)
  | JValue.bool _, JValue.obj _ => isFalse (by simp)
  | JValue.num _, JValue.null => isFalse (by simp)
  | JValue.num _, JValue.bool _ => isFalse (by simp)
  | JValue.num _, JValue.str _ => isFalse (by simp)
  | JValue.num _, JValue.arr _ => isFalse (by simp)
  | JValue.num _, JValue.obj _ => isFalse (by simp)
  | JValue.str _, JValue.null => isFalse (by simp)
  | JValue.str _, JValue.bool _ => isFalse (by simp)
  | JValue.str _, JValue.num _ => isFalse (by simp)
  | JValue.str _, JValue.arr _ => isFalse (by simp)
  | JValue.str _, JValue.obj _ => isFalse (by simp)
  | JValue.arr _, JValue.null => isFalse (by simp)
  | JValue.arr _, JValue.bool _ => isFalse (by simp)
  | JValue.arr _, JValue.num _ => isFalse (by simp)
  | JValue.arr _, JValue.str _ => isFalse (by simp)
  | JValue.arr _, JValue.obj _ => isFalse (by simp)
  | JValue.obj _, JValue.null => isFalse (by simp)
  | JValue.obj _, JValue.bool _ => isFalse (by simp)
  | JValue.obj _, JValue.num _ => isFalse (by simp)
  | JValue.obj _, JValue.str _ => isFalse (by simp)
  | JValue.obj _, JValue.arr _ => isFalse (by simp)

/-- Decidable equality for JSON arrays. -/
def JValue.decEqList : (as bs : List JValue) → Decidable (as = bs)
  | [], [] => isTrue rfl
  | [], _ :: _ => isFalse (by simp)
  | _ :: _, [] => isFalse (by simp)
  | a :: as, b :: bs =>
      match JValue.decEq a b with
      | isTrue h1 =>
          match JValue.decEqList as bs with
          | isTrue h2 => isTrue (by rw [h1, h2])
          | isFalse h2 => isFalse (by simp [h2])
      | isFalse h1 => isFalse (by simp [h1])

/-- Decidable equality for JSON objects (key/value lists). -/
def JValue.decEqObj : (as bs : List (String × JValue)) → Decidable (as = bs)
  | [], [] => isTrue rfl
  | [], _ :: _ => isFalse (by simp)
  | _ :: _, [] => isFalse (by simp)
  | (k1, v1) :: as, (k2, v2) :: bs =>
      if hk : k1 = k2 then
        match JValue.decEq v1 v2 with
        | isTrue hv =>
            match JValue.decEqObj as bs with
            | isTrue ht => isTrue (by rw [hk, hv, ht])
            | isFalse ht => isFalse (by simp [ht])
        | isFalse hv => isFalse (by simp [hv])
      else isFalse (by simp [hk])

end

instance : DecidableEq JValue := JValue.decEq

/-- A `Settings` object as Python actually holds it after
`Settings(**data)`: every field dynamically typed, since dataclasses do
not validate the types of keyword arguments. -/
structure PySettings where
  output_mode : JValue := JValue.str "same"
  output_folder : JValue := JValue.null
  engine_overrides : JValue := JValue.obj []
  window_width : JValue := JValue.num 700
  window_height : JValue := JValue.num 500
  window_x : JValue := JValue.null
  window_y : JValue := JValue.null
deriving DecidableEq

/-- The default-constructed `Settings()` seen dynamically. -/
def PySettings.defaults : PySettings := {}

/-- The dynamic view of a well-typed `Settings` value (each field
serialised exactly as `dataclasses.asdict` + JSON represents it). -/
def Settings.toDyn (s : Settings) : PySettings where
  output_mode := JValue.str s.output_mode
  output_folder :=
    match s.output_folder with
    | some f => JValue.str f
    | none => JValue.null
  engine_overrides :=
    JValue.obj (s.engine_overrides.map fun kv => (kv.1, JValue.str kv.2))
  window_width := JValue.num s.window_width
  window_height := JValue.num s.window_height
  window_x :=
    match s.window_x with
    | some x => JValue.num x
    | none => JValue.null
  window_y :=
    match s.window_y with
    | some y => JValue.num y
    | none => JValue.null

/-- `dataclasses.asdict(self)` followed by `json.dumps`/`json.loads`: the
JSON object `Settings.save` persists, fields in declaration order. -/
def Settings.asdict (s : Settings) : JValue :=
  JValue.obj
    [("output_mode", JValue.str s.output_mode),
     ("output_folder",
       match s.output_folder with
       | some f => JValue.str f
       | none => JValue.null),
     ("engine_overrides",
       JValue.obj (s.engine_overrides.map fun kv => (kv.1, JValue.str kv.2))),
     ("window_width", JValue.num s.window_width),
     ("window_height", JValue.num s.window_height),
     ("window_x",
       match s.window_x with
       | some x => JValue.num x
       | none => JValue.null),
     ("window_y",
       match s.window_y with
       | some y => JValue.num y
       | none => JValue.null)]

/-- `Settings(**data)` applied to a parsed JSON object: each known key
overwrites the corresponding (defaulted) field with its value verbatim —
dataclasses perform no type checking; an unknown key raises `TypeError`
(modelled as `none`). -/
def applyKwargs : List (String × JValue) → PySettings → Option PySettings
  | [], s => some s
  | (k, v) :: rest, s =>
      if k = "output_mode" then applyKwargs rest { s with output_mode := v }
      else if k = "output_folder" then applyKwargs rest { s with output_folder := v }
      else if k = "engine_overrides" then applyKwargs rest { s with engine_overrides := v }
      else if k = "window_width" then applyKwargs rest { s with window_width := v }
      else if k = "window_height" then applyKwargs rest { s with window_height := v }
      else if k = "window_x" then applyKwargs rest { s with window_x := v }
      else if k = "window_y" then applyKwargs rest { s with window_y := v }
      else none

/-- `Settings.load` over the abstracted store: missing file, unparseable
text, `**`-unpacking a non-object, or a `TypeError` from an unknown field
each fall back to the defaults; otherwise the parsed object is applied as
keyword arguments. -/
def Settings.load (stored : Option (Option JValue)) : PySettings :=
  match stored with
  | none => PySettings.defaults
  | some none => PySettings.defaults
  | some (some j) =>
      match j with
      | JValue.obj kvs => (applyKwargs kvs PySettings.defaults).getD PySettings.defaults
      | _ => PySettings.defaults

/-- `DocumentConverter`: the facade state, its settings and registry. -/
structure DocumentConverter where
  settings : Settings
  registry : EngineRegistry

/-- `DocumentConverter._select_engine`: forced engine, then the stored
user override, then the registry default/fallback resolution. The Python
guards `if forced_engine:` and `if user_engine:` are string truthiness,
so the empty string is skipped like `None`. -/
def DocumentConverter.select_engine (c : DocumentConverter) (ext : String)
    (forced_engine : Option String) : Option Engine :=
  let forcedStep : Option Engine :=
    match forced_engine with
    | some fe =>
        if fe ≠ "" then
          match c.registry.get fe with
          | some engine =>
              if engine.available && engine.supports_format ext then some engine else none
          | none => none
        else none
    | none => none
  match forcedStep with
  | some engine => some engine
  | none =>
      let overrideStep : Option Engine :=
        match c.settings.get_engine_for_extension ext with
        | some user_engine =>
            if user_engine ≠ "" then
              match c.registry.get user_engine with
              | some engine =>
                  if engine.available && engine.supports_format ext then some engine else none
              | none => none
            else none
        | none => none
      match overrideStep with
      | some engine => some engine
      | none => c.registry.get_for_extension ext

/-- `DocumentConverter._get_output_path`: `<stem>.md`, placed in the
configured folder when `output_mode == "folder"` and the folder is set
(Python truthiness of `str | None`: `None` and `""` both fail the guard),
otherwise next to the input. -/
def DocumentConverter.get_output_path (c : DocumentConverter) (input_path : PyPath) : PyPath :=
  let output_name := input_path.stem ++ ".md"
  if c.settings.output_mode == "folder"
      && (match c.settings.output_folder with
          | some f => f != ""
          | none => false) then
    PyPath.joined ((c.settings.output_folder).getD "") output_name
  else
    PyPath.joined input_path.parent output_name

/-- `DocumentConverter.convert` over the abstract filesystem `fs`:
validate existence, validate the extension, resolve the output path,
select an engine and delegate to it. -/
def DocumentConverter.convert (c : DocumentConverter) (fs : PyPath → Bool)
    (input_path : PyPath) (output_path : Option PyPath)
    (engine_name : Option String) : ConversionResult :=
  if fs input_path = false then
    { success := false, error := some ("Input file not found: " ++ input_path.toStr) }
  else
    let ext := lstripDots (strLower input_path.suffix)
    if is_supported_format ext = false then
      { success := false, error := some ("Unsupported file format: ." ++ ext) }
    else
      let out : PyPath :=
        match output_path with
        | none => c.get_output_path input_path
        | some p => p
      match c.select_engine ext engine_name with
      | none =>
          { success := false, error := some ("No available engine for ." ++ ext ++ " files") }
      | some engine => engine.run input_path out

/-- One `file_completed` signal of the batch worker. -/
structure FileOutcome where
  path : PyPath
  success : Bool
  message : String

/-- Everything `ConversionWorker.run` emits: the `progress` signals, the
`file_completed` signals and the final `conversion_done` tally. -/
structure BatchResult where
  progress_events : List (Nat × Nat × String)
  file_events : List FileOutcome
  success_count : Nat
  fail_count : Nat

/-- The loop body of `ConversionWorker.run`, from position `i` on
(`conv` is `self.converter.convert`, `output_func` the caller-supplied
output resolver). The per-file failure message is
`result.error or "Unknown error"` (string truthiness again). -/
def ConversionWorker.runAux (conv : PyPath → PyPath → ConversionResult)
    (output_func : PyPath → PyPath) (total : Nat) :
    Nat → List PyPath → BatchResult
  | _, [] => ⟨[], [], 0, 0⟩
  | i, f :: rest =>
      let result := conv f (output_func f)
      let message :=
        if result.success then
          match result.output_path with
          | some p => p.toStr
          | none => "None"
        else
          match result.error with
          | some e => if e ≠ "" then e else "Unknown error"
          | none => "Unknown error"
      let tail := ConversionWorker.runAux conv output_func total (i + 1) rest
      ⟨(i + 1, total, f.name) :: tail.progress_events,
       ⟨f, result.success, message⟩ :: tail.file_events,
       (if result.success then 1 else 0) + tail.success_count,
       (if result.success then 0 else 1) + tail.fail_count⟩

/-- `ConversionWorker.run` (the minimum-duration sleep, pure wall-clock
presentation, is not part of the emitted data). -/
def ConversionWorker.run (conv : PyPath → PyPath → ConversionResult)
    (output_func : PyPath → PyPath) (files : List PyPath) : BatchResult :=
  ConversionWorker.runAux conv output_func files.length 0 files

/-- A conversion behaviour whose details are irrelevant to the selection
claims (selection never inspects `run`). -/
def abstractRun : PyPath → PyPath → ConversionResult :=
  fun _ _ => { success := false }

/-- The registry `_register_default_engines` builds: a `PandocEngine`
then a `MarkItDownEngine`, with the given availability probes. -/
def default_registry (pandoc_available markitdown_available : Bool) : EngineRegistry :=
  ((EngineRegistry.mk []).register (PandocEngine pandoc_available abstractRun)).register
    (MarkItDownEngine markitdown_available abstractRun)

/-- Modelled from the spec: one tier of engine resolution — take the
named engine only if it is registered, available and declares support for
the (already normalized) extension; otherwise nothing. -/
def specTier (r : EngineRegistry) (ext : String) (name? : Option String) : Option Engine :=
  name?.bind fun n =>
    (r.get n).bind fun e =>
      if e.available && e.supports_format ext then some e else none

/-- Modelled from the spec: `bestEngineFor` as §4.1 words it — the
policy's default engine if registered, available and declaring support;
otherwise the policy's fallback under the same three conditions; otherwise
the first available engine in registration order that declares support. -/
def bestEngineForSpec (r : EngineRegistry) (extension : String) : Option Engine :=
  let ext := normalize_extension extension
  ((specTier r ext ((DEFAULT_ENGINE_MAPPING ext).map Prod.fst)).orElse fun _ =>
    (specTier r ext ((DEFAULT_ENGINE_MAPPING ext).bind Prod.snd)).orElse fun _ =>
      r.get_available.find? fun e => e.supports_format ext)

/-- Modelled from the spec: the Facade's engine resolution as §4.2 step 4
words it — forced id, then stored override, then `bestEngineFor`, each of
the first two tiers taken only when registered, available and supporting,
and silently skipped otherwise. -/
def selectEngineSpec (c : DocumentConverter) (ext : String)
    (forced : Option String) : Option Engine :=
  ((specTier c.registry ext forced).orElse fun _ =>
    (specTier c.registry ext (c.settings.get_engine_for_extension ext)).orElse fun _ =>
      c.registry.get_for_extension ext)

/-- Modelled from the spec: output-path resolution as §4.2 step 3 words
it — `SameFolder` to the input's parent, `FixedFolder` with a configured
folder to that folder, every other combination to the input's parent. -/
def outputPathSpec (s : Settings) (input : PyPath) : PyPath :=
  let output_name := input.stem ++ ".md"
  if s.output_mode = "folder" then
    match s.output_folder with
    | some f => PyPath.joined f output_name
    | none => PyPath.joined input.parent output_name
  else
    PyPath.joined input.parent output_name

/-! ## Helper lemmas -/

/-- ASCII lowering is idempotent. -/
theorem char_toLower_idem (c : Char) : c.toLower.toLower = c.toLower := by
  by_cases h : c.toNat ≥ 65 ∧ c.toNat ≤ 90
  · have hv : Nat.isValidChar (c.toNat + 32) := Or.inl (by omega)
    have ht : (Char.ofNat (c.toNat + 32)).toNat = c.toNat + 32 := by
      unfold Char.ofNat
      rw [dif_pos hv]
      rfl
    have h1 : c.toLower = Char.ofNat (c.toNat + 32) := by
      simp only [Char.toLower]
      rw [if_pos h]
    rw [h1]
    conv_lhs => simp only [Char.toLower]
    rw [if_neg (by rw [ht]; omega)]
  · have h1 : c.toLower = c := by
      simp only [Char.toLower]
      rw [if_neg h]
    rw [h1]
    exact h1

/-- Dropping a prefix twice drops it once. -/
theorem dropWhile_idem (p : Char → Bool) (l : List Char) :
    (l.dropWhile p).dropWhile p = l.dropWhile p := by
  induction l with
  | nil => rfl
  | cons a as ih =>
      by_cases h : p a
      · rw [List.dropWhile_cons_of_pos h]
        exact ih
      · rw [List.dropWhile_cons_of_neg h, List.dropWhile_cons_of_neg h]

/-- Extension normalization is idempotent. -/
theorem normalize_extension_idem (s : String) :
    normalize_extension (normalize_extension s) = normalize_extension s := by
  unfold normalize_extension strLower lstripDots
  apply congrArg String.mk
  show ((List.dropWhile (fun c => c == '.') (s.data.map Char.toLower)).map
      Char.toLower).dropWhile (fun c => c == '.') = _
  have hfix : (List.dropWhile (fun c => c == '.') (s.data.map Char.toLower)).map Char.toLower
      = List.dropWhile (fun c => c == '.') (s.data.map Char.toLower) := by
    have h1 : ∀ a ∈ List.dropWhile (fun c => c == '.') (s.data.map Char.toLower),
        Char.toLower a = id a := by
      intro a ha
      rcases List.mem_map.1 (List.dropWhile_subset _ ha) with ⟨b, _, rfl⟩
      exact char_toLower_idem b
    rw [List.map_congr_left h1, List.map_id]
  rw [hfix, dropWhile_idem]

/-- Extension normalization swallows a leading dot. -/
theorem normalize_extension_dot (s : String) :
    normalize_extension (String.mk ('.' :: s.data)) = normalize_extension s := by
  unfold normalize_extension strLower lstripDots
  apply congrArg String.mk
  show (('.' :: s.data).map Char.toLower).dropWhile (fun c => c == '.') = _
  rw [List.map_cons]
  rw [show Char.toLower '.' = '.' from rfl]
  rw [List.dropWhile_cons_of_pos (by decide)]

/-- C9: extension normalization lowercases and strips all leading dots
("DOCX", ".docx", ".DOCX" and "..docx" all normalize to "docx"), it is
idempotent, and prepending a further dot never changes the result. -/
theorem normalize_extension_correct :
    (normalize_extension "DOCX" = "docx" ∧ normalize_extension ".docx" = "docx" ∧
      normalize_extension ".DOCX" = "docx" ∧ normalize_extension "..docx" = "docx") ∧
    (∀ s : String, normalize_extension (normalize_extension s) = normalize_extension s) ∧
    (∀ s : String, normalize_extension (String.mk ('.' :: s.data)) = normalize_extension s) :=
  ⟨by decide, normalize_extension_idem, normalize_extension_dot⟩

/-- The registry resolution agrees with the spec's three-tier description
of `bestEngineFor`. -/
theorem get_for_extension_eq_spec (r : EngineRegistry) (ext : String) :
    r.get_for_extension ext = bestEngineForSpec r ext := by
  unfold EngineRegistry.get_for_extension bestEngineForSpec specTier
  simp only [get_engine_for_format, get_fallback_engine, normalize_extension_idem]
  cases DEFAULT_ENGINE_MAPPING (normalize_extension ext) with
  | none => simp [Option.orElse]
  | some m =>
      obtain ⟨d, fb⟩ := m
      cases hr : r.get d with
      | none =>
          cases fb with
          | none => simp [Option.orElse, hr]
          | some f =>
              cases hf : r.get f with
              | none => simp [Option.orElse, hr, hf]
              | some e =>
                  by_cases hb : (e.available && e.supports_format (normalize_extension ext)) = true
                  · obtain ⟨ha, hs⟩ := Bool.and_eq_true_iff.mp hb
                    simp [Option.orElse, hr, hf, ha, hs]
                  · have hb2 : ¬(e.available = true ∧ e.supports_format (normalize_extension ext) = true) :=
                      fun hc => hb (Bool.and_eq_true_iff.mpr hc)
                    simp [Option.orElse, hr, hf, hb, hb2]
      | some e =>
          by_cases hb : (e.available && e.supports_format (normalize_extension ext)) = true
          · obtain ⟨ha, hs⟩ := Bool.and_eq_true_iff.mp hb
            simp [Option.orElse, hr, ha, hs]
          · have hbn : ¬(e.available = true ∧ e.supports_format (normalize_extension ext) = true) :=
              fun hc => hb (Bool.and_eq_true_iff.mpr hc)
            cases fb with
            | none => simp [Option.orElse, hr, hb, hbn]
            | some f =>
                cases hf : r.get f with
                | none => simp [Option.orElse, hr, hf, hb, hbn]
                | some e2 =>
                    by_cases hc : (e2.available && e2.supports_format (normalize_extension ext)) = true
                    · obtain ⟨ha2, hs2⟩ := Bool.and_eq_true_iff.mp hc
                      simp [Option.orElse, hr, hf, hb, hbn, ha2, hs2]
                    · have hcn : ¬(e2.available = true ∧ e2.supports_format (normalize_extension ext) = true) :=
                        fun hp => hc (Bool.and_eq_true_iff.mpr hp)
                      simp [Option.orElse, hr, hf, hb, hbn, hc, hcn]

/-- C1: for every registry state and extension, `get_for_extension`
normalizes the extension and resolves exactly as the spec's three-tier
preference order describes; and in the concrete scenario — policy
`docx → (pandoc, markitdown)`, pandoc registered but unavailable,
markitdown registered and available — it returns markitdown. -/
theorem bestEngineFor_correct :
    (∀ (r : EngineRegistry) (ext : String),
        r.get_for_extension ext = bestEngineForSpec r ext) ∧
    ((default_registry false true).get_for_extension "docx").map Engine.name =
      some "markitdown" :=
  ⟨get_for_extension_eq_spec, by decide⟩

/-- A tier of the spec resolution only ever produces an engine that
declares support for the extension it was asked about. -/
theorem specTier_supports (r : EngineRegistry) (ext : String) (name? : Option String)
    (e : Engine) (h : specTier r ext name? = some e) : e.supports_format ext = true := by
  unfold specTier at h
  cases name? with
  | none => simp at h
  | some n =>
      simp only [Option.some_bind] at h
      cases hg : r.get n with
      | none => rw [hg] at h; simp at h
      | some x =>
          rw [hg] at h
          simp only [Option.some_bind] at h
          by_cases hb : (x.available && x.supports_format ext) = true
          · rw [if_pos hb] at h
            injection h with h2
            subst h2
            exact (Bool.and_eq_true_iff.mp hb).2
          · rw [if_neg hb] at h
            simp at h

/-- Whatever the registry resolution returns declares support for the
normalized extension. -/
theorem get_for_extension_supports (r : EngineRegistry) (ext : String) (e : Engine)
    (h : r.get_for_extension ext = some e) :
    e.supports_format (normalize_extension ext) = true := by
  rw [get_for_extension_eq_spec] at h
  unfold bestEngineForSpec at h
  simp only [Option.orElse] at h
  cases h1 : specTier r (normalize_extension ext)
      ((DEFAULT_ENGINE_MAPPING (normalize_extension ext)).map Prod.fst) with
  | some x =>
      rw [h1] at h
      injection h with h2
      subst h2
      exact specTier_supports _ _ _ _ h1
  | none =>
      rw [h1] at h
      cases h2 : specTier r (normalize_extension ext)
          ((DEFAULT_ENGINE_MAPPING (normalize_extension ext)).bind Prod.snd) with
      | some x =>
          rw [h2] at h
          injection h with h3
          subst h3
          exact specTier_supports _ _ _ _ h2
      | none =>
          rw [h2] at h
          have h3 : r.get_available.find?
              (fun x => x.supports_format (normalize_extension ext)) = some e := h
          exact List.find?_some (p := fun x => Engine.supports_format x (normalize_extension ext)) h3

/-- Normalizing twice does not change what `supports_format` reports. -/
theorem supports_format_normalize (e : Engine) (x : String) :
    e.supports_format (normalize_extension x) = e.supports_format x := by
  show e.supported_formats.contains (normalize_extension (normalize_extension x)) =
    e.supported_formats.contains (normalize_extension x)
  rw [normalize_extension_idem]

/-- C8: for every extension in the policy table and every registry state,
a returned engine's declared format set contains the normalized extension
— `get_for_extension` never hands back a non-supporting engine. -/
theorem get_for_extension_declares_support :
    ∀ (r : EngineRegistry) (ext : String) (e : Engine),
      ext ∈ SUPPORTED_FORMATS →
      r.get_for_extension ext = some e →
      e.supported_formats.contains (normalize_extension ext) = true := by
  intro r ext e _ h
  have hs := get_for_extension_supports r ext e h
  rw [supports_format_normalize] at hs
  exact hs

/-- Witness for C8: a registry holding only an available markitdown
resolves "docx" (via the policy fallback) to an engine that declares
support for it. -/
theorem get_for_extension_declares_support_witness :
    "docx" ∈ SUPPORTED_FORMATS ∧
    (default_registry false true).get_for_extension "docx" =
      some (MarkItDownEngine true abstractRun) ∧
    (MarkItDownEngine true abstractRun).supported_formats.contains
      (normalize_extension "docx") = true :=
  ⟨by decide, by rfl,
    get_for_extension_declares_support (default_registry false true) "docx"
      (MarkItDownEngine true abstractRun) (by decide) (by rfl)⟩

/-- In a registry whose engines all carry nonempty ids (the data-model
invariant: an id is a stable short name), looking up the empty string
finds nothing. -/
theorem get_empty_none (r : EngineRegistry) (hn : ∀ e ∈ r.engines, e.name ≠ "") :
    r.get "" = none := by
  unfold EngineRegistry.get
  rw [List.find?_eq_none]
  intro x hx
  simpa using hn x hx

/-- The Facade's `_select_engine` agrees with the spec's tiered
description, for every registry whose engine ids are nonempty. -/
theorem select_engine_eq_spec (c : DocumentConverter) (ext : String) (forced : Option String)
    (hn : ∀ e ∈ c.registry.engines, e.name ≠ "") :
    c.select_engine ext forced = selectEngineSpec c ext forced := by
  have hemp : c.registry.get "" = none := get_empty_none c.registry hn
  unfold DocumentConverter.select_engine selectEngineSpec specTier
  cases forced with
  | none =>
      cases ho : c.settings.get_engine_for_extension ext with
      | none => simp [Option.orElse, hemp, ho]
      | some u =>
          by_cases hu : u = ""
          · subst hu
            simp [Option.orElse, ho, hemp]
          · cases hg2 : c.registry.get u with
            | none => simp [Option.orElse, hemp, ho, hu, hg2]
            | some e2 =>
                by_cases hb2 : (e2.available && e2.supports_format ext) = true
                · obtain ⟨ha2, hs2⟩ := Bool.and_eq_true_iff.mp hb2
                  simp [Option.orElse, hemp, ho, hu, hg2, ha2, hs2]
                · have hbn2 : ¬(e2.available = true ∧ e2.supports_format ext = true) :=
                    fun hp => hb2 (Bool.and_eq_true_iff.mpr hp)
                  simp [Option.orElse, hemp, ho, hu, hg2, hb2, hbn2]
  | some fe =>
      by_cases hfe : fe = ""
      · subst hfe
        cases ho : c.settings.get_engine_for_extension ext with
        | none => simp [Option.orElse, hemp, ho]
        | some u =>
            by_cases hu : u = ""
            · subst hu
              simp [Option.orElse, ho, hemp]
            · cases hg2 : c.registry.get u with
              | none => simp [Option.orElse, hemp, ho, hu, hg2]
              | some e2 =>
                  by_cases hb2 : (e2.available && e2.supports_format ext) = true
                  · obtain ⟨ha2, hs2⟩ := Bool.and_eq_true_iff.mp hb2
                    simp [Option.orElse, hemp, ho, hu, hg2, ha2, hs2]
                  · have hbn2 : ¬(e2.available = true ∧ e2.supports_format ext = true) :=
                      fun hp => hb2 (Bool.and_eq_true_iff.mpr hp)
                    simp [Option.orElse, hemp, ho, hu, hg2, hb2, hbn2]
      · cases hg : c.registry.get fe with
        | none =>
          cases ho : c.settings.get_engine_for_extension ext with
          | none => simp [Option.orElse, hemp, ho, hfe, hg]
          | some u =>
              by_cases hu : u = ""
              · subst hu
                simp [Option.orElse, ho, hemp, hfe, hg]
              · cases hg2 : c.registry.get u with
                | none => simp [Option.orElse, hemp, ho, hu, hg2, hfe, hg]
                | some e2 =>
                    by_cases hb2 : (e2.available && e2.supports_format ext) = true
                    · obtain ⟨ha2, hs2⟩ := Bool.and_eq_true_iff.mp hb2
                      simp [Option.orElse, hemp, ho, hu, hg2, ha2, hs2, hfe, hg]
                    · have hbn2 : ¬(e2.available = true ∧ e2.supports_format ext = true) :=
                        fun hp => hb2 (Bool.and_eq_true_iff.mpr hp)
                      simp [Option.orElse, hemp, ho, hu, hg2, hb2, hbn2, hfe, hg]
        | some e =>
            by_cases hb : (e.available && e.supports_format ext) = true
            · obtain ⟨ha, hs⟩ := Bool.and_eq_true_iff.mp hb
              simp [Option.orElse, hfe, hg, ha, hs]
            · have hbn : ¬(e.available = true ∧ e.supports_format ext = true) :=
                fun hp => hb (Bool.and_eq_true_iff.mpr hp)
              cases ho : c.settings.get_engine_for_extension ext with
              | none => simp [Option.orElse, hemp, ho, hfe, hg, hb, hbn]
              | some u =>
                  by_cases hu : u = ""
                  · subst hu
                    simp [Option.orElse, ho, hemp, hfe, hg, hb, hbn]
                  · cases hg2 : c.registry.get u with
                    | none => simp [Option.orElse, hemp, ho, hu, hg2, hfe, hg, hb, hbn]
                    | some e2 =>
                        by_cases hb2 : (e2.available && e2.supports_format ext) = true
                        · obtain ⟨ha2, hs2⟩ := Bool.and_eq_true_iff.mp hb2
                          simp [Option.orElse, hemp, ho, hu, hg2, ha2, hs2, hfe, hg, hb, hbn]
                        · have hbn2 : ¬(e2.available = true ∧ e2.supports_format ext = true) :=
                            fun hp => hb2 (Bool.and_eq_true_iff.mpr hp)
                          simp [Option.orElse, hemp, ho, hu, hg2, hb2, hbn2, hfe, hg, hb, hbn]

/-- Whatever `_select_engine` returns declares support for the extension
it was asked about (nonempty engine ids assumed). -/
theorem select_engine_supports (c : DocumentConverter) (ext : String)
    (forced : Option String) (e : Engine)
    (hn : ∀ x ∈ c.registry.engines, x.name ≠ "")
    (h : c.select_engine ext forced = some e) : e.supports_format ext = true := by
  rw [select_engine_eq_spec c ext forced hn] at h
  unfold selectEngineSpec at h
  simp only [Option.orElse] at h
  cases h1 : specTier c.registry ext forced with
  | some x =>
      rw [h1] at h
      injection h with h2
      subst h2
      exact specTier_supports _ _ _ _ h1
  | none =>
      rw [h1] at h
      cases h2 : specTier c.registry ext (c.settings.get_engine_for_extension ext) with
      | some x =>
          rw [h2] at h
          injection h with h3
          subst h3
          exact specTier_supports _ _ _ _ h2
      | none =>
          rw [h2] at h
          have h4 : c.registry.get_for_extension ext = some e := h
          have h5 := get_for_extension_supports _ _ _ h4
          rwa [supports_format_normalize] at h5

/-- C2: for every conversion request the Facade resolves the engine by
the spec's priority — forced id, then stored override, then the
registry's resolution, each of the first two only when registered,
available and supporting; a forced tier that fails its three conditions
is silently skipped (the result is exactly the unforced resolution, never
an error of its own); and the selected engine always declares support for
the extension, so a forced engine not supporting it is never invoked. -/
theorem select_engine_correct :
    ∀ (c : DocumentConverter) (ext : String) (forced : Option String),
      (∀ x ∈ c.registry.engines, x.name ≠ "") →
      (c.select_engine ext forced = selectEngineSpec c ext forced ∧
        (specTier c.registry ext forced = none →
          c.select_engine ext forced = c.select_engine ext none) ∧
        ∀ e : Engine, c.select_engine ext forced = some e →
          e.supports_format ext = true) := by
  intro c ext forced hn
  refine ⟨select_engine_eq_spec c ext forced hn, ?_, ?_⟩
  · intro hf
    rw [select_engine_eq_spec c ext forced hn, select_engine_eq_spec c ext none hn]
    unfold selectEngineSpec
    rw [hf]
    rfl
  · intro e he
    exact select_engine_supports c ext forced e hn he

/-- Witness for C2: the default registry (pandoc unavailable, markitdown
available), default settings, extension "docx", forcing "pandoc". -/
theorem select_engine_correct_witness :
    (∀ x ∈ (DocumentConverter.mk {} (default_registry false true)).registry.engines,
        x.name ≠ "") ∧
    ((DocumentConverter.mk {} (default_registry false true)).select_engine "docx"
          (some "pandoc") =
        selectEngineSpec (DocumentConverter.mk {} (default_registry false true)) "docx"
          (some "pandoc") ∧
      (specTier (DocumentConverter.mk {} (default_registry false true)).registry "docx"
            (some "pandoc") = none →
        (DocumentConverter.mk {} (default_registry false true)).select_engine "docx"
            (some "pandoc") =
          (DocumentConverter.mk {} (default_registry false true)).select_engine "docx" none) ∧
      ∀ e : Engine,
        (DocumentConverter.mk {} (default_registry false true)).select_engine "docx"
            (some "pandoc") = some e →
        e.supports_format "docx" = true) :=
  ⟨by decide, select_engine_correct (DocumentConverter.mk {} (default_registry false true))
    "docx" (some "pandoc") (by decide)⟩

/-- The worker loop from any starting index: one outcome per input in
input order, counts summing to the number of inputs, and an all-failures
run producing only failure outcomes. -/
theorem runAux_spec (conv : PyPath → PyPath → ConversionResult)
    (output_func : PyPath → PyPath) (total : Nat) (files : List PyPath) :
    ∀ i : Nat,
      ((ConversionWorker.runAux conv output_func total i files).file_events.map
          FileOutcome.path = files) ∧
      ((ConversionWorker.runAux conv output_func total i files).success_count +
          (ConversionWorker.runAux conv output_func total i files).fail_count =
        files.length) ∧
      ((∀ f ∈ files, (conv f (output_func f)).success = false) →
        (ConversionWorker.runAux conv output_func total i files).fail_count = files.length ∧
        (ConversionWorker.runAux conv output_func total i files).success_count = 0 ∧
        ∀ ev ∈ (ConversionWorker.runAux conv output_func total i files).file_events,
          ev.success = false) := by
  induction files with
  | nil =>
      intro i
      refine ⟨rfl, rfl, fun _ => ⟨rfl, rfl, ?_⟩⟩
      intro ev hev
      simp [ConversionWorker.runAux] at hev
  | cons f rest ih =>
      intro i
      obtain ⟨ih1, ih2, ih3⟩ := ih (i + 1)
      refine ⟨?_, ?_, ?_⟩
      · simp only [ConversionWorker.runAux, List.map_cons]
        rw [ih1]
      · simp only [ConversionWorker.runAux, List.length_cons]
        cases hs : (conv f (output_func f)).success <;> simp [hs] <;> omega
      · intro hall
        have hf : (conv f (output_func f)).success = false := hall f (List.mem_cons_self f rest)
        have hrest : ∀ g ∈ rest, (conv g (output_func g)).success = false :=
          fun g hg => hall g (List.mem_cons_of_mem f hg)
        obtain ⟨ha, hb, hc⟩ := ih3 hrest
        refine ⟨?_, ?_, ?_⟩
        · simp only [ConversionWorker.runAux, List.length_cons]
          rw [hf]
          simp only [Bool.false_eq_true, if_false, if_true]
          omega
        · simp only [ConversionWorker.runAux]
          rw [hf]
          simpa using hb
        · intro ev hev
          simp only [ConversionWorker.runAux, List.mem_cons] at hev
          rcases hev with h1 | h2
          · rw [h1]
            exact hf
          · exact hc ev h2

/-- C3: the batch runner attempts every input exactly once in input
order, emits one outcome event per file, never drops or retries a file,
and its final tally satisfies `success + fail = N`; when the engine
fails on every file the run yields `fail = N`, `success = 0` and a
failure outcome for each input, still in order. -/
theorem worker_run_correct :
    ∀ (conv : PyPath → PyPath → ConversionResult)
      (output_func : PyPath → PyPath) (files : List PyPath),
      ((ConversionWorker.run conv output_func files).file_events.map
          FileOutcome.path = files) ∧
      ((ConversionWorker.run conv output_func files).success_count +
          (ConversionWorker.run conv output_func files).fail_count = files.length) ∧
      ((∀ f ∈ files, (conv f (output_func f)).success = false) →
        (ConversionWorker.run conv output_func files).fail_count = files.length ∧
        (ConversionWorker.run conv output_func files).success_count = 0 ∧
        ∀ ev ∈ (ConversionWorker.run conv output_func files).file_events,
          ev.success = false) :=
  fun conv output_func files => runAux_spec conv output_func files.length files 0

/-- C4: converting a path that does not exist yields a not-found failure
result — returned as data, identical for every registry, settings, engine
behaviour, requested output and forced engine, so no selection or engine
call can have taken place. -/
theorem convert_not_found :
    ∀ (c : DocumentConverter) (fs : PyPath → Bool) (input_path : PyPath)
      (output_path : Option PyPath) (engine_name : Option String),
      fs input_path = false →
      c.convert fs input_path output_path engine_name =
        { success := false,
          error := some ("Input file not found: " ++ input_path.toStr) } := by
  intro c fs p out en h
  unfold DocumentConverter.convert
  rw [if_pos h]

/-- Witness for C4: a concrete converter over an empty filesystem. -/
theorem convert_not_found_witness :
    (fun (_ : PyPath) => false) (PyPath.mk "/a/b" "doc.docx") = false ∧
    (DocumentConverter.mk {} (default_registry true true)).convert (fun _ => false)
        (PyPath.mk "/a/b" "doc.docx") none none =
      { success := false,
        error := some ("Input file not found: " ++ (PyPath.mk "/a/b" "doc.docx").toStr) } :=
  ⟨rfl, convert_not_found (DocumentConverter.mk {} (default_registry true true))
    (fun _ => false) (PyPath.mk "/a/b" "doc.docx") none none rfl⟩

/-- C10: converting an existing file whose name has no extension yields
an unsupported-format failure (the empty normalized extension is not a
policy key), again identical for every registry, settings and engine
behaviour — no selection or engine call happens. -/
theorem convert_no_extension :
    ∀ (c : DocumentConverter) (fs : PyPath → Bool) (input_path : PyPath)
      (output_path : Option PyPath) (engine_name : Option String),
      fs input_path = true →
      input_path.suffix = "" →
      (c.convert fs input_path output_path engine_name =
          { success := false, error := some "Unsupported file format: ." } ∧
        DEFAULT_ENGINE_MAPPING "" = none) := by
  intro c fs p out en hex hsuf
  refine ⟨?_, by decide⟩
  simp only [DocumentConverter.convert, hex, hsuf]
  rw [if_neg (by simp)]
  rw [if_pos (by decide)]
  decide

/-- Witness for C10: an extensionless file that exists. -/
theorem convert_no_extension_witness :
    (fun (_ : PyPath) => true) (PyPath.mk "/a" "README") = true ∧
    (PyPath.mk "/a" "README").suffix = "" ∧
    ((DocumentConverter.mk {} (default_registry true true)).convert (fun _ => true)
          (PyPath.mk "/a" "README") none none =
        { success := false, error := some "Unsupported file format: ." } ∧
      DEFAULT_ENGINE_MAPPING "" = none) :=
  ⟨rfl, by decide,
    convert_no_extension (DocumentConverter.mk {} (default_registry true true))
      (fun _ => true) (PyPath.mk "/a" "README") none none rfl (by decide)⟩

/-- C6: with no explicit output path the resolved output is
`<stem>.md`, placed in the configured folder exactly when the mode is
"folder" and a (nonempty) folder is configured, and next to the input in
every other combination — including "folder" with no folder and "ask";
concretely `/a/b/doc.docx` resolves to `/a/b/doc.md`, `/x/doc.md` and
`/a/b/doc.md` under the three quoted configurations; and an explicitly
supplied output path is handed to the engine verbatim. -/
theorem output_path_correct :
    (∀ (c : DocumentConverter) (input : PyPath),
        c.settings.output_folder ≠ some "" →
        c.get_output_path input = outputPathSpec c.settings input) ∧
    ((DocumentConverter.mk { output_mode := "same" } (EngineRegistry.mk [])).get_output_path
        (PyPath.mk "/a/b" "doc.docx") = PyPath.mk "/a/b" "doc.md") ∧
    ((DocumentConverter.mk { output_mode := "folder", output_folder := some "/x" }
          (EngineRegistry.mk [])).get_output_path (PyPath.mk "/a/b" "doc.docx") =
      PyPath.mk "/x" "doc.md") ∧
    ((DocumentConverter.mk { output_mode := "folder", output_folder := none }
          (EngineRegistry.mk [])).get_output_path (PyPath.mk "/a/b" "doc.docx") =
      PyPath.mk "/a/b" "doc.md") ∧
    ((DocumentConverter.mk { output_mode := "ask" } (EngineRegistry.mk [])).get_output_path
        (PyPath.mk "/a/b" "doc.docx") = PyPath.mk "/a/b" "doc.md") ∧
    (∀ (c : DocumentConverter) (fs : PyPath → Bool) (input p : PyPath)
        (forced : Option String) (e : Engine),
        fs input = true →
        is_supported_format (lstripDots (strLower input.suffix)) = true →
        c.select_engine (lstripDots (strLower input.suffix)) forced = some e →
        c.convert fs input (some p) forced = e.run input p) := by
  refine ⟨?_, by decide, by decide, by decide, by decide, ?_⟩
  · intro c input hne
    unfold DocumentConverter.get_output_path outputPathSpec
    by_cases hm : c.settings.output_mode = "folder"
    · cases hfold : c.settings.output_folder with
      | none => simp [hm, hfold]
      | some f =>
          have hf : f ≠ "" := by
            intro h0
            exact hne (by rw [hfold, h0])
          simp [hm, hfold, hf]
    · simp [hm]
  · intro c fs input p forced e hex hsup hsel
    simp only [DocumentConverter.convert]
    rw [if_neg (by simp [hex])]
    rw [if_neg (by simp [hsup])]
    rw [hsel]

/-- Keyword application fails (raises `TypeError`) whenever any key is
not a `Settings` field name, whatever the starting record. -/
theorem applyKwargs_unknown (kvs : List (String × JValue)) :
    ∀ (s : PySettings) (k : String) (v : JValue),
      (k, v) ∈ kvs →
      k ∉ (["output_mode", "output_folder", "engine_overrides", "window_width",
            "window_height", "window_x", "window_y"] : List String) →
      applyKwargs kvs s = none := by
  induction kvs with
  | nil =>
      intro s k v hmem _
      simp at hmem
  | cons hd tl ih =>
      intro s k v hmem hnot
      obtain ⟨k1, v1⟩ := hd
      rcases List.mem_cons.mp hmem with heq | htl
      · injection heq with hk hv
        subst hk
        subst hv
        obtain ⟨h1, h2, h3, h4, h5, h6, h7, -⟩ :
            k ≠ "output_mode" ∧ k ≠ "output_folder" ∧ k ≠ "engine_overrides" ∧
              k ≠ "window_width" ∧ k ≠ "window_height" ∧ k ≠ "window_x" ∧
              k ≠ "window_y" ∧ True := by
          simp only [List.mem_cons, List.not_mem_nil] at hnot
          push_neg at hnot
          exact ⟨hnot.1, hnot.2.1, hnot.2.2.1, hnot.2.2.2.1, hnot.2.2.2.2.1,
            hnot.2.2.2.2.2.1, hnot.2.2.2.2.2.2.1, trivial⟩
        simp [applyKwargs, h1, h2, h3, h4, h5, h6, h7]
      · simp only [applyKwargs]
        split_ifs <;> first | rfl | exact ih _ k v htl hnot

/-- C5 counterexample: a persisted object whose known field carries a
type-mismatched value is not discarded — loading
`{"output_mode": 123}` does not yield the default Preferences. -/
theorem settings_load_counterexample :
    Settings.load (some (some (JValue.obj [("output_mode", JValue.num 123)]))) ≠
      PySettings.defaults := by decide

/-- C5 (amended): loading yields exactly the defaults when the store is
missing, is unparseable JSON, parses to a non-object, or contains an
unknown top-level field; but a known field's value is merged verbatim
with no type validation, so a type-mismatched known field survives into
the loaded structure instead of forcing defaults. -/
theorem settings_load_correct :
    Settings.load none = PySettings.defaults ∧
    Settings.load (some none) = PySettings.defaults ∧
    (∀ j : JValue, (∀ kvs, j ≠ JValue.obj kvs) →
      Settings.load (some (some j)) = PySettings.defaults) ∧
    (∀ (kvs : List (String × JValue)) (k : String) (v : JValue),
      (k, v) ∈ kvs →
      k ∉ (["output_mode", "output_folder", "engine_overrides", "window_width",
            "window_height", "window_x", "window_y"] : List String) →
      Settings.load (some (some (JValue.obj kvs))) = PySettings.defaults) ∧
    (Settings.load (some (some (JValue.obj [("output_mode", JValue.num 123)]))) =
      { PySettings.defaults with output_mode := JValue.num 123 }) := by
  refine ⟨rfl, rfl, ?_, ?_, by decide⟩
  · intro j hj
    cases j with
    | obj kvs => exact absurd rfl (hj kvs)
    | null => rfl
    | bool b => rfl
    | num n => rfl
    | str s => rfl
    | arr l => rfl
  · intro kvs k v hmem hnot
    show (applyKwargs kvs PySettings.defaults).getD PySettings.defaults = PySettings.defaults
    rw [applyKwargs_unknown kvs PySettings.defaults k v hmem hnot]
    rfl

/-- Witness for C5: a numeric store and a store with only the unknown
field "mystery" both load as the defaults. -/
theorem settings_load_correct_witness :
    ((∀ kvs, JValue.num 7 ≠ JValue.obj kvs) ∧
      Settings.load (some (some (JValue.num 7))) = PySettings.defaults) ∧
    (("mystery", JValue.str "x") ∈ [("mystery", JValue.str "x")] ∧
      "mystery" ∉ (["output_mode", "output_folder", "engine_overrides", "window_width",
            "window_height", "window_x", "window_y"] : List String) ∧
      Settings.load (some (some (JValue.obj [("mystery", JValue.str "x")]))) =
        PySettings.defaults) :=
  ⟨⟨fun kvs h => JValue.noConfusion h,
    settings_load_correct.2.2.1 (JValue.num 7) (fun kvs h => JValue.noConfusion h)⟩,
    ⟨by decide, by decide,
      settings_load_correct.2.2.2.1 [("mystery", JValue.str "x")] "mystery" (JValue.str "x")
        (by decide) (by decide)⟩⟩

/-- The optional-string field encoding is injective. -/
theorem optStrEnc_inj (a b : Option String)
    (h : (match a with | some f => JValue.str f | none => JValue.null) =
      (match b with | some f => JValue.str f | none => JValue.null)) : a = b := by
  cases a <;> cases b <;> simp_all

/-- The optional-integer field encoding is injective. -/
theorem optIntEnc_inj (a b : Option Int)
    (h : (match a with | some x => JValue.num x | none => JValue.null) =
      (match b with | some x => JValue.num x | none => JValue.null)) : a = b := by
  cases a <;> cases b <;> simp_all

/-- The engine-overrides encoding is injective. -/
theorem overridesEnc_inj : ∀ (l1 l2 : List (String × String)),
    l1.map (fun kv => (kv.1, JValue.str kv.2)) =
      l2.map (fun kv => (kv.1, JValue.str kv.2)) → l1 = l2 := by
  intro l1
  induction l1 with
  | nil =>
      intro l2 h
      cases l2 with
      | nil => rfl
      | cons b bs => simp at h
  | cons a as ih =>
      intro l2 h
      cases l2 with
      | nil => simp at h
      | cons b bs =>
          obtain ⟨a1, a2⟩ := a
          obtain ⟨b1, b2⟩ := b
          simp only [List.map_cons, List.cons.injEq, Prod.mk.injEq] at h
          obtain ⟨⟨h1, h2⟩, h3⟩ := h
          injection h2 with h2a
          rw [h1, h2a, ih bs h3]

/-- C7: saving Preferences and loading them back is the identity — the
loaded dynamic structure is exactly the dynamic view of what was saved,
the dynamic view is injective (equal views mean equal Preferences), and
the quoted concrete value round-trips to exactly its own fields. -/
theorem settings_roundtrip :
    (∀ s : Settings, Settings.load (some (some (Settings.asdict s))) = Settings.toDyn s) ∧
    (∀ s t : Settings, Settings.toDyn s = Settings.toDyn t → s = t) ∧
    (Settings.load (some (some (Settings.asdict (Settings.mk "folder" (some "/tmp/out")
        [("docx", "markitdown")] 700 500 none none)))) =
      Settings.toDyn (Settings.mk "folder" (some "/tmp/out") [("docx", "markitdown")]
        700 500 none none)) := by
  refine ⟨fun s => rfl, ?_, by decide⟩
  intro s t h
  obtain ⟨m1, f1, o1, w1, g1, x1, y1⟩ := s
  obtain ⟨m2, f2, o2, w2, g2, x2, y2⟩ := t
  simp only [Settings.toDyn, PySettings.mk.injEq] at h
  obtain ⟨hm, hf, ho, hw, hg, hx, hy⟩ := h
  injection hm with hm1
  injection ho with ho1
  injection hw with hw1
  injection hg with hg1
  simp only [Settings.mk.injEq]
  exact ⟨hm1, optStrEnc_inj f1 f2 hf, overridesEnc_inj o1 o2 ho1, hw1, hg1,
    optIntEnc_inj x1 x2 hx, optIntEnc_inj y1 y2 hy⟩

/-- Witness for C7: the quoted Preferences round-trips, and the dynamic
view applied twice to the defaults is collapsed back by injectivity. -/
theorem settings_roundtrip_witness :
    (Settings.load (some (some (Settings.asdict (Settings.mk "folder" (some "/tmp/out")
        [("docx", "markitdown")] 700 500 none none)))) =
      Settings.toDyn (Settings.mk "folder" (some "/tmp/out") [("docx", "markitdown")]
        700 500 none none)) ∧
    Settings.toDyn {} = Settings.toDyn {} ∧ ({} : Settings) = {} :=
  ⟨settings_roundtrip.1 (Settings.mk "folder" (some "/tmp/out") [("docx", "markitdown")]
      700 500 none none),
    rfl, settings_roundtrip.2.1 {} {} rfl⟩

/-- Witness for C6: the "folder" configuration agrees with the spec
resolution on a concrete input, and an explicit output path is handed to
the selected engine verbatim. -/
theorem output_path_correct_witness :
    ((DocumentConverter.mk { output_mode := "folder", output_folder := some "/x" }
          (EngineRegistry.mk [])).settings.output_folder ≠ some "" ∧
      (DocumentConverter.mk { output_mode := "folder", output_folder := some "/x" }
          (EngineRegistry.mk [])).get_output_path (PyPath.mk "/a/b" "doc.docx") =
        outputPathSpec
          (DocumentConverter.mk { output_mode := "folder", output_folder := some "/x" }
            (EngineRegistry.mk [])).settings (PyPath.mk "/a/b" "doc.docx")) ∧
    ((fun (_ : PyPath) => true) (PyPath.mk "/a/b" "doc.docx") = true ∧
      is_supported_format (lstripDots (strLower (PyPath.mk "/a/b" "doc.docx").suffix)) = true ∧
      (DocumentConverter.mk {} (default_registry false true)).select_engine
          (lstripDots (strLower (PyPath.mk "/a/b" "doc.docx").suffix)) none =
        some (MarkItDownEngine true abstractRun) ∧
      (DocumentConverter.mk {} (default_registry false true)).convert (fun _ => true)
          (PyPath.mk "/a/b" "doc.docx") (some (PyPath.mk "/out" "doc.md")) none =
        (MarkItDownEngine true abstractRun).run (PyPath.mk "/a/b" "doc.docx")
          (PyPath.mk "/out" "doc.md")) :=
  ⟨⟨by decide,
    output_path_correct.1
      (DocumentConverter.mk { output_mode := "folder", output_folder := some "/x" }
        (EngineRegistry.mk [])) (PyPath.mk "/a/b" "doc.docx") (by decide)⟩,
    ⟨rfl, by decide, by rfl,
      output_path_correct.2.2.2.2.2 (DocumentConverter.mk {} (default_registry false true))
        (fun _ => true) (PyPath.mk "/a/b" "doc.docx") (PyPath.mk "/out" "doc.md") none
        (MarkItDownEngine true abstractRun) rfl (by decide) (by rfl)⟩⟩

/-- Witness for C3: a two-file batch under an always-failing converter. -/
theorem worker_run_correct_witness :
    ((ConversionWorker.run (fun _ _ => { success := false, error := some "boom" })
        (fun p => p) [PyPath.mk "/a" "x.docx", PyPath.mk "/a" "y.docx"]).file_events.map
          FileOutcome.path = [PyPath.mk "/a" "x.docx", PyPath.mk "/a" "y.docx"]) ∧
    ((ConversionWorker.run (fun _ _ => { success := false, error := some "boom" })
          (fun p => p) [PyPath.mk "/a" "x.docx", PyPath.mk "/a" "y.docx"]).success_count +
        (ConversionWorker.run (fun _ _ => { success := false, error := some "boom" })
          (fun p => p) [PyPath.mk "/a" "x.docx", PyPath.mk "/a" "y.docx"]).fail_count =
      ([PyPath.mk "/a" "x.docx", PyPath.mk "/a" "y.docx"] : List PyPath).length) ∧
    ((∀ f ∈ ([PyPath.mk "/a" "x.docx", PyPath.mk "/a" "y.docx"] : List PyPath),
        (({ success := false, error := some "boom" } : ConversionResult)).success = false) →
      (ConversionWorker.run (fun _ _ => { success := false, error := some "boom" })
          (fun p => p) [PyPath.mk "/a" "x.docx", PyPath.mk "/a" "y.docx"]).fail_count =
        ([PyPath.mk "/a" "x.docx", PyPath.mk "/a" "y.docx"] : List PyPath).length ∧
      (ConversionWorker.run (fun _ _ => { success := false, error := some "boom" })
          (fun p => p) [PyPath.mk "/a" "x.docx", PyPath.mk "/a" "y.docx"]).success_count = 0 ∧
      ∀ ev ∈ (ConversionWorker.run (fun _ _ => { success := false, error := some "boom" })
          (fun p => p) [PyPath.mk "/a" "x.docx", PyPath.mk "/a" "y.docx"]).file_events,
        ev.success = false) :=
  worker_run_correct (fun _ _ => { success := false, error := some "boom" }) (fun p => p)
    [PyPath.mk "/a" "x.docx", PyPath.mk "/a" "y.docx"]
